import Mathlib

/-
Shallow embedding of src/sdl2/surface.rs from the rust-sdl2 repository.

The file under verification is a safe wrapper over the foreign SDL surface
API.  The wrapper functions are translated into Lean functions; every
foreign (C-level) entry point is modelled either by an explicit oracle
parameter (when the wrapper merely relays its result) or by a small state
transformer following the foreign call documented contract (lock counting,
color-key storage, clip-rectangle intersection).  Rust panics are modelled
as Except.error values that propagate past the remaining statements of the
function, exactly as unwinding does in the source (none of the local
values in these functions has a destructor).
-/

namespace RustSdl2Surface

/-- Rectangle from the collaborating rect module: position and extent.
The source module is not part of the file under verification; only its
field layout (x, y, w, h as machine integers) is needed here. -/
structure Rect where
  x : Int
  y : Int
  w : Int
  h : Int
  deriving DecidableEq, Repr

/-- Model of the raw SDL_Surface record together with the foreign-library
state the wrapped calls consult. Fields flags, w, h, pitch, and the pixel
buffer (mem, a byte per address) mirror the raw C struct read by the
wrapper; locked is the foreign lock counter maintained by
SDL_LockSurface / SDL_UnlockSurface; lockFails is an oracle telling
whether a lock attempt fails; colorKey is the foreign color-key slot read
by SDL_GetColorKey; clip is the clip rectangle stored by SDL_SetClipRect. -/
structure SDL_Surface where
  flags : Nat
  w : Nat
  h : Nat
  pitch : Nat
  mem : Nat → Nat
  locked : Nat
  lockFails : Bool
  colorKey : Option Nat
  clip : Rect

/-- RLE-acceleration bit of the flags field (value 0x00000002 in the
foreign headers; the wrapper comment says it implements SDL_MUSTLOCK). -/
def SDL_RLEACCEL : Nat := 2

/-- Color type from the collaborating pixels module: an RGB or RGBA
triple/quadruple of channel bytes. -/
inductive Color where
  | RGB (r g b : Nat)
  | RGBA (r g b a : Nat)
  deriving DecidableEq, Repr

/-- SurfaceRef::get_width. -/
def get_width (s : SDL_Surface) : Nat := s.w

/-- SurfaceRef::get_height. -/
def get_height (s : SDL_Surface) : Nat := s.h

/-- SurfaceRef::get_pitch. -/
def get_pitch (s : SDL_Surface) : Nat := s.pitch

/-- SurfaceRef::must_lock: a pure bitflag test of flags against
SDL_RLEACCEL, translated from
(self.raw.flags AND SDL_RLEACCEL) != 0. -/
def must_lock (s : SDL_Surface) : Bool :=
  (s.flags &&& SDL_RLEACCEL) != 0

/-- The byte view of length pitch * h over the pixel buffer that the
wrapper builds with slice::from_raw_parts(self.raw.pixels, pitch * h). -/
def pixelsView (s : SDL_Surface) : List Nat :=
  (List.range (s.pitch * s.h)).map s.mem

/-- SurfaceRef::without_lock: the byte view when no locking is required,
otherwise None. -/
def without_lock (s : SDL_Surface) : Option (List Nat) :=
  if must_lock s then Option.none
  else Option.some (pixelsView s)

/-- SurfaceRef::without_lock_mut: same branch structure as without_lock,
handing out the same view mutably. -/
def without_lock_mut (s : SDL_Surface) : Option (List Nat) :=
  if must_lock s then Option.none
  else Option.some (pixelsView s)

/-- A concrete software surface used to instantiate theorems: flags 0,
4 rows of 4 bytes, unlocked, no color key, clip covering the surface. -/
def exSurf : SDL_Surface :=
  { flags := 0, w := 4, h := 4, pitch := 4, mem := fun _ => 0,
    locked := 0, lockFails := false, colorKey := Option.none,
    clip := ⟨0, 0, 4, 4⟩ }

/-- An RLE-accelerated variant of the concrete surface (flags bit 2 set). -/
def exSurfRLE : SDL_Surface :=
  { exSurf with flags := SDL_RLEACCEL }

/-- C7: must_lock is a pure function of the flags field — it returns true
exactly when the RLE-acceleration bit is set, and two surfaces with equal
flags get the same answer whatever their other state is. -/
theorem must_lock_pure_flag_test (s t : SDL_Surface)
    (hst : s.flags = t.flags) :
    (must_lock s = true ↔ (s.flags &&& SDL_RLEACCEL) ≠ 0) ∧
    must_lock s = must_lock t := by
  constructor
  · simp [must_lock]
  · simp [must_lock, hst]

/-- Witness for C7 at two concrete surfaces that differ everywhere except
in their flags field. -/
theorem must_lock_pure_flag_test_witness :
    (must_lock exSurf = true ↔ (exSurf.flags &&& SDL_RLEACCEL) ≠ 0) ∧
    must_lock exSurf = must_lock { exSurf with w := 7, locked := 3 } :=
  must_lock_pure_flag_test exSurf { exSurf with w := 7, locked := 3 } rfl

/-- C3: without_lock (and without_lock_mut) returns a view exactly when
must_lock is false, and any returned view has length pitch * height. -/
theorem without_lock_iff_not_must_lock (s : SDL_Surface) :
    ((without_lock s).isSome = !must_lock s) ∧
    (∀ v, without_lock s = Option.some v →
      v.length = get_pitch s * get_height s) ∧
    ((without_lock_mut s).isSome = !must_lock s) ∧
    (∀ v, without_lock_mut s = Option.some v →
      v.length = get_pitch s * get_height s) := by
  refine ⟨?_, ?_, ?_, ?_⟩
  · by_cases h : must_lock s <;> simp [without_lock, h]
  · intro v hv
    by_cases h : must_lock s <;> simp [without_lock, h] at hv
    subst hv
    simp [pixelsView, get_pitch, get_height]
  · by_cases h : must_lock s <;> simp [without_lock_mut, h]
  · intro v hv
    by_cases h : must_lock s <;> simp [without_lock_mut, h] at hv
    subst hv
    simp [pixelsView, get_pitch, get_height]

/-- Witness for C3 at the concrete software surface: a view is returned
and its length is pitch * height = 16. -/
theorem without_lock_iff_not_must_lock_witness :
    (pixelsView exSurf).length = get_pitch exSurf * get_height exSurf :=
  (without_lock_iff_not_must_lock exSurf).2.1 (pixelsView exSurf) (by rfl)

/-- Model of the foreign SDL_LockSurface call: on success it returns code
0 and increments the lock counter; the lockFails oracle selects the
documented failure (nonzero code, state unchanged). -/
def SDL_LockSurface (s : SDL_Surface) : Int × SDL_Surface :=
  if s.lockFails then (-1, s)
  else (0, { s with locked := s.locked + 1 })

/-- Model of the foreign SDL_UnlockSurface call: decrements the lock
counter when it is positive. -/
def SDL_UnlockSurface (s : SDL_Surface) : SDL_Surface :=
  if s.locked = 0 then s else { s with locked := s.locked - 1 }

/-- Overwrite of the pixel buffer from a byte list, modelling the writes
the mutable-view callback performed through its slice. -/
def writeBytes (m : Nat → Nat) (bytes : List Nat) : Nat → Nat :=
  fun i => if h : i < bytes.length then bytes.get ⟨i, h⟩ else m i

/-- SurfaceRef::with_lock, translated statement by statement: lock, panic
on nonzero code, build the pitch * h byte view, run the callback, unlock,
return the callback value.  The callback type is
List Nat → Except String R so a callback panic (Except.error) can be
expressed; as in the source, where unwinding skips the rest of the
function body, a callback error propagates WITHOUT reaching the
SDL_UnlockSurface call.  The result pairs the wrapper outcome (error =
panic) with the foreign state at exit. -/
def with_lock {R : Type} (s : SDL_Surface)
    (f : List Nat → Except String R) : Except String R × SDL_Surface :=
  let res := SDL_LockSurface s
  if res.1 ≠ 0 then (Except.error "could not lock surface", res.2)
  else
    match f (pixelsView res.2) with
    | Except.error e => (Except.error e, res.2)
    | Except.ok rv => (Except.ok rv, SDL_UnlockSurface res.2)

/-- SurfaceRef::with_lock_mut: as with_lock, but the callback receives the
mutable view; a normally-returning callback also yields the final buffer
contents, which are written back before the unlock. -/
def with_lock_mut {R : Type} (s : SDL_Surface)
    (f : List Nat → Except String (R × List Nat)) :
    Except String R × SDL_Surface :=
  let res := SDL_LockSurface s
  if res.1 ≠ 0 then (Except.error "could not lock surface", res.2)
  else
    match f (pixelsView res.2) with
    | Except.error e => (Except.error e, res.2)
    | Except.ok rv =>
        (Except.ok rv.1,
         SDL_UnlockSurface { res.2 with mem := writeBytes res.2.mem rv.2 })

/-- C1 counterexample: the claim that the lock is released on every exit
path fails when the callback panics.  At the concrete surface exSurf
(lock counter 0), running with_lock and with_lock_mut with a panicking
callback leaves the foreign lock counter at 1, not at its prior value:
the unlock call is skipped by unwinding. -/
theorem with_lock_leaks_on_callback_panic :
    (with_lock exSurf
      (fun _ => (Except.error "boom" : Except String Unit))).2.locked
        ≠ exSurf.locked ∧
    (with_lock_mut exSurf
      (fun _ =>
        (Except.error "boom" : Except String (Unit × List Nat)))).2.locked
        ≠ exSurf.locked := by
  constructor <;> decide

/-- C1 amended: the lock is released whenever the callback returns
normally — whatever value it returns, an application-level error value
included — restoring the lock counter, so that a subsequent lock
acquisition succeeds; only a panicking (unwinding) callback escapes the
unlock.  Both with_lock and with_lock_mut are covered; the callback
hypotheses describe its result on the view of the locked surface, which
is the view it is handed. -/
theorem with_lock_releases_on_normal_return {R S : Type}
    (s t : SDL_Surface) (f : List Nat → Except String R)
    (g : List Nat → Except String (S × List Nat)) (rv : R)
    (rw : S × List Nat)
    (hs : s.lockFails = false) (ht : t.lockFails = false)
    (hf : f (pixelsView { s with locked := s.locked + 1 }) = Except.ok rv)
    (hg : g (pixelsView { t with locked := t.locked + 1 }) = Except.ok rw) :
    (with_lock s f).1 = Except.ok rv ∧
    (with_lock s f).2.locked = s.locked ∧
    (SDL_LockSurface (with_lock s f).2).1 = 0 ∧
    (with_lock_mut t g).2.locked = t.locked ∧
    (SDL_LockSurface (with_lock_mut t g).2).1 = 0 := by
  simp only [hs] at hf
  simp only [ht] at hg
  refine ⟨?_, ?_, ?_, ?_, ?_⟩ <;>
    simp [with_lock, with_lock_mut, SDL_LockSurface, SDL_UnlockSurface,
      hs, ht, hf, hg]

/-- Witness for the amended C1 at the concrete surface, with a callback
returning an application-level error value: the value comes back and the
lock counter is restored to 0. -/
theorem with_lock_releases_on_normal_return_witness :
    (with_lock exSurf
      (fun _ => Except.ok (Except.error "app error" : Except String Nat))).1
      = Except.ok (Except.error "app error") ∧
    (with_lock exSurf
      (fun _ =>
        Except.ok (Except.error "app error" : Except String Nat))).2.locked
      = exSurf.locked ∧
    (SDL_LockSurface (with_lock exSurf
      (fun _ =>
        Except.ok (Except.error "app error" : Except String Nat))).2).1
      = 0 ∧
    (with_lock_mut exSurf
      (fun v => Except.ok ((), v))).2.locked = exSurf.locked ∧
    (SDL_LockSurface (with_lock_mut exSurf
      (fun v => Except.ok ((), v))).2).1 = 0 :=
  with_lock_releases_on_normal_return exSurf exSurf
    (fun _ => Except.ok (Except.error "app error" : Except String Nat))
    (fun v => Except.ok ((), v)) (Except.error "app error")
    ((), pixelsView { exSurf with locked := exSurf.locked + 1 })
    rfl rfl rfl rfl

/-- Pixel masks from the collaborating pixels module: bits per pixel and
the four channel masks. -/
structure PixelMasks where
  bpp : Nat
  rmask : Nat
  gmask : Nat
  bmask : Nat
  amask : Nat
  deriving DecidableEq, Repr

/-- Record of a call into the foreign library made by a constructor, so
that a theorem can state that no foreign call happened. -/
inductive ForeignCall where
  | createRGBSurface (w h bpp rmask gmask bmask amask : Nat)
  | createRGBSurfaceFrom (data : List Nat)
      (w h bpp pitch rmask gmask bmask amask : Nat)
  deriving DecidableEq, Repr

/-- Surface::from_pixelmasks.  The oracle createResult stands for the
foreign SDL_CreateRGBSurface outcome (Option.none models a null return)
and lastError for the process-global error string read by get_error; the
second component lists the foreign calls made, in order. -/
def from_pixelmasks (createResult : Option SDL_Surface) (lastError : String)
    (width height : Nat) (masks : PixelMasks) :
    Except String SDL_Surface × List ForeignCall :=
  if width ≥ 2 ^ 31 ∨ height ≥ 2 ^ 31 then
    (Except.error "Image is too large.", [])
  else
    let calls := [ForeignCall.createRGBSurface width height masks.bpp
      masks.rmask masks.gmask masks.bmask masks.amask]
    match createResult with
    | Option.none => (Except.error lastError, calls)
    | Option.some raw => (Except.ok raw, calls)

/-- Surface::new: resolves the pixel format to masks — the pixels-module
call, whose outcome is the parameter masksResult — and defers to
from_pixelmasks; a mask-resolution failure propagates as-is before any
check. -/
def new (masksResult : Except String PixelMasks)
    (createResult : Option SDL_Surface) (lastError : String)
    (width height : Nat) : Except String SDL_Surface × List ForeignCall :=
  match masksResult with
  | Except.error e => (Except.error e, [])
  | Except.ok masks =>
      from_pixelmasks createResult lastError width height masks

/-- Surface::from_data_pixelmasks, with the caller-supplied buffer passed
through to the foreign SDL_CreateRGBSurfaceFrom call (oracle
createResult, null modelled by Option.none). -/
def from_data_pixelmasks (createResult : Option SDL_Surface)
    (lastError : String) (data : List Nat) (width height pitch : Nat)
    (masks : PixelMasks) : Except String SDL_Surface × List ForeignCall :=
  if width ≥ 2 ^ 31 ∨ height ≥ 2 ^ 31 then
    (Except.error "Image is too large.", [])
  else if pitch ≥ 2 ^ 31 then
    (Except.error "Pitch is too large.", [])
  else
    let calls := [ForeignCall.createRGBSurfaceFrom data width height
      masks.bpp pitch masks.rmask masks.gmask masks.bmask masks.amask]
    match createResult with
    | Option.none => (Except.error lastError, calls)
    | Option.some raw => (Except.ok raw, calls)

/-- Surface::from_data: mask resolution followed by
from_data_pixelmasks. -/
def from_data (masksResult : Except String PixelMasks)
    (createResult : Option SDL_Surface) (lastError : String)
    (data : List Nat) (width height pitch : Nat) :
    Except String SDL_Surface × List ForeignCall :=
  match masksResult with
  | Except.error e => (Except.error e, [])
  | Except.ok masks =>
      from_data_pixelmasks createResult lastError data width height pitch
        masks

/-- C2: any width or height at or above 2 ^ 31 makes from_pixelmasks and
from_data_pixelmasks (also reached through new and from_data once masks
resolve) return the size-limit error with an empty foreign-call trace,
and for the buffer-aliasing constructor a pitch at or above 2 ^ 31 (with
in-range dimensions) is rejected the same way before any foreign call. -/
theorem oversized_dimensions_rejected_before_foreign_call
    (createResult : Option SDL_Surface) (lastError : String)
    (masks : PixelMasks) (data : List Nat)
    (w1 h1 w2 h2 p2 : Nat)
    (hwh : w1 ≥ 2 ^ 31 ∨ h1 ≥ 2 ^ 31)
    (hw2 : w2 < 2 ^ 31) (hh2 : h2 < 2 ^ 31) (hp2 : p2 ≥ 2 ^ 31) :
    from_pixelmasks createResult lastError w1 h1 masks =
      (Except.error "Image is too large.", []) ∧
    new (Except.ok masks) createResult lastError w1 h1 =
      (Except.error "Image is too large.", []) ∧
    from_data_pixelmasks createResult lastError data w1 h1 p2 masks =
      (Except.error "Image is too large.", []) ∧
    from_data (Except.ok masks) createResult lastError data w1 h1 p2 =
      (Except.error "Image is too large.", []) ∧
    from_data_pixelmasks createResult lastError data w2 h2 p2 masks =
      (Except.error "Pitch is too large.", []) ∧
    from_data (Except.ok masks) createResult lastError data w2 h2 p2 =
      (Except.error "Pitch is too large.", []) := by
  have hno : ¬ (w2 ≥ 2 ^ 31 ∨ h2 ≥ 2 ^ 31) := by omega
  refine ⟨?_, ?_, ?_, ?_, ?_, ?_⟩
  · simp only [from_pixelmasks]
    rw [if_pos hwh]
  · simp only [new, from_pixelmasks]
    rw [if_pos hwh]
  · simp only [from_data_pixelmasks]
    rw [if_pos hwh]
  · simp only [from_data, from_data_pixelmasks]
    rw [if_pos hwh]
  · simp only [from_data_pixelmasks]
    rw [if_neg hno, if_pos hp2]
  · simp only [from_data, from_data_pixelmasks]
    rw [if_neg hno, if_pos hp2]

/-- Witness for C2 at concrete oversized inputs: width 2 ^ 31 for the
dimension conjuncts, and pitch 2 ^ 31 with 1 x 1 dimensions for the
pitch conjunct. -/
theorem oversized_dimensions_rejected_witness :
    from_pixelmasks Option.none "" (2 ^ 31) 0 ⟨32, 0, 0, 0, 0⟩ =
      (Except.error "Image is too large.", []) ∧
    new (Except.ok ⟨32, 0, 0, 0, 0⟩) Option.none "" (2 ^ 31) 0 =
      (Except.error "Image is too large.", []) ∧
    from_data_pixelmasks Option.none "" [] (2 ^ 31) 0 (2 ^ 31)
        ⟨32, 0, 0, 0, 0⟩ =
      (Except.error "Image is too large.", []) ∧
    from_data (Except.ok ⟨32, 0, 0, 0, 0⟩) Option.none "" [] (2 ^ 31) 0
        (2 ^ 31) =
      (Except.error "Image is too large.", []) ∧
    from_data_pixelmasks Option.none "" [] 1 1 (2 ^ 31) ⟨32, 0, 0, 0, 0⟩ =
      (Except.error "Pitch is too large.", []) ∧
    from_data (Except.ok ⟨32, 0, 0, 0, 0⟩) Option.none "" [] 1 1 (2 ^ 31) =
      (Except.error "Pitch is too large.", []) :=
  oversized_dimensions_rejected_before_foreign_call Option.none ""
    ⟨32, 0, 0, 0, 0⟩ [] (2 ^ 31) 0 1 1 (2 ^ 31)
    (Or.inl (le_refl _)) (by norm_num) (by norm_num) (le_refl _)

/-- SurfaceRef::fill_rect.  The color is first converted to a pixel value
through the pixels-module conversion (parameter toU32, standing for
color.to_u32 with the surface format); the foreign SDL_FillRect outcome
is the oracle fillOk on the rectangle and pixel value.  The paint log —
the list of (rectangle, pixel) fills the foreign layer performed, in
order — models the destination pixels; a failing fill paints nothing. -/
def fill_rect (fillOk : Option Rect → Nat → Bool) (toU32 : Color → Nat)
    (lastError : String) (painted : List (Option Rect × Nat))
    (rect : Option Rect) (color : Color) :
    Except String Unit × List (Option Rect × Nat) :=
  let pixel := toU32 color
  if fillOk rect pixel then (Except.ok (), painted ++ [(rect, pixel)])
  else (Except.error lastError, painted)

/-- SurfaceRef::fill_rects: iterate fill_rect over the list, returning
the first error immediately. -/
def fill_rects (fillOk : Option Rect → Nat → Bool) (toU32 : Color → Nat)
    (lastError : String) (painted : List (Option Rect × Nat))
    (rects : List (Option Rect)) (color : Color) :
    Except String Unit × List (Option Rect × Nat) :=
  match rects with
  | [] => (Except.ok (), painted)
  | r :: rest =>
    match fill_rect fillOk toU32 lastError painted r color with
    | (Except.error e, p) => (Except.error e, p)
    | (Except.ok _, p) => fill_rects fillOk toU32 lastError p rest color

/-- Helper: when every rectangle in the list fills successfully,
fill_rects succeeds and appends every fill to the paint log in order. -/
theorem fill_rects_all_ok (fillOk : Option Rect → Nat → Bool)
    (toU32 : Color → Nat) (lastError : String) (color : Color) :
    ∀ (rects : List (Option Rect)) (painted : List (Option Rect × Nat)),
    (∀ r ∈ rects, fillOk r (toU32 color) = true) →
    fill_rects fillOk toU32 lastError painted rects color =
      (Except.ok (), painted ++ rects.map (fun r => (r, toU32 color))) := by
  intro rects
  induction rects with
  | nil => intro painted _; simp [fill_rects]
  | cons r rest ih =>
      intro painted hall
      have hr : fillOk r (toU32 color) = true := hall r (by simp)
      have hrest : ∀ q ∈ rest, fillOk q (toU32 color) = true := by
        intro q hq; exact hall q (by simp [hq])
      simp only [fill_rects, fill_rect, hr, if_pos]
      rw [ih (painted ++ [(r, toU32 color)]) hrest]
      simp

/-- C5: fill_rects paints the rectangles in order and stops at the first
failing fill, returning its error with everything before it painted and
nothing after it painted; when every fill succeeds it returns success
with all rectangles painted. -/
theorem fill_rects_stops_at_first_failure
    (fillOk : Option Rect → Nat → Bool) (toU32 : Color → Nat)
    (lastError : String) (color : Color)
    (painted0 : List (Option Rect × Nat))
    (pre post allOk : List (Option Rect)) (bad : Option Rect)
    (hpre : ∀ r ∈ pre, fillOk r (toU32 color) = true)
    (hbad : fillOk bad (toU32 color) = false)
    (hall : ∀ r ∈ allOk, fillOk r (toU32 color) = true) :
    fill_rects fillOk toU32 lastError painted0 (pre ++ bad :: post) color =
      (Except.error lastError,
        painted0 ++ pre.map (fun r => (r, toU32 color))) ∧
    fill_rects fillOk toU32 lastError painted0 allOk color =
      (Except.ok (), painted0 ++ allOk.map (fun r => (r, toU32 color))) := by
  constructor
  · clear hall
    induction pre generalizing painted0 with
    | nil =>
        simp only [List.nil_append, fill_rects, fill_rect, hbad]
        simp
    | cons r rest ih =>
        have hr : fillOk r (toU32 color) = true := hpre r (by simp)
        have hrest : ∀ q ∈ rest, fillOk q (toU32 color) = true := by
          intro q hq; exact hpre q (by simp [hq])
        simp only [List.cons_append, fill_rects, fill_rect, hr, if_pos,
          List.append_eq]
        rw [ih (painted0 ++ [(r, toU32 color)]) hrest]
        simp
  · exact fill_rects_all_ok fillOk toU32 lastError color allOk painted0 hall

/-- Witness for C5: with a foreign layer that rejects exactly the
rectangle of width 0, a batch of two good rectangles, one bad one, and a
trailing good one paints the two leading rectangles and stops with the
error; the all-good batch paints everything. -/
theorem fill_rects_stops_at_first_failure_witness :
    fill_rects (fun r _ => match r with
        | Option.some rr => rr.w != 0
        | Option.none => true)
      (fun _ => 7) "fill failed" []
      [Option.some ⟨0, 0, 2, 2⟩, Option.none, Option.some ⟨1, 1, 0, 5⟩,
        Option.some ⟨3, 3, 1, 1⟩] (Color.RGB 1 2 3) =
      (Except.error "fill failed",
        [(Option.some ⟨0, 0, 2, 2⟩, 7), (Option.none, 7)]) ∧
    fill_rects (fun r _ => match r with
        | Option.some rr => rr.w != 0
        | Option.none => true)
      (fun _ => 7) "fill failed" [] [Option.none, Option.some ⟨0, 0, 2, 2⟩]
      (Color.RGB 1 2 3) =
      (Except.ok (),
        [(Option.none, 7), (Option.some ⟨0, 0, 2, 2⟩, 7)]) := by
  have h := fill_rects_stops_at_first_failure
    (fun r _ => match r with
      | Option.some rr => rr.w != 0
      | Option.none => true)
    (fun _ => 7) "fill failed" (Color.RGB 1 2 3) []
    [Option.some ⟨0, 0, 2, 2⟩, Option.none] [Option.some ⟨3, 3, 1, 1⟩]
    [Option.none, Option.some ⟨0, 0, 2, 2⟩] (Option.some ⟨1, 1, 0, 5⟩)
    (by decide) (by decide) (by decide)
  simpa using h

/-- Shape of the models of the foreign SDL_UpperBlit and
SDL_UpperBlitScaled calls: from source surface, optional source
rectangle, destination surface and the content of the destination
rectangle pointer (none models a null pointer), they yield the status
code together with the final blit rectangle — the actual destination
rectangle the copy used after internal clipping — which the foreign call
stores through the destination rectangle pointer when that pointer is
non-null. -/
def BlitSem : Type :=
  SDL_Surface → Option Rect → SDL_Surface → Option Rect → Int × Rect

/-- Containment of a rectangle in the bounds of a surface. -/
def rectInBounds (r : Rect) (s : SDL_Surface) : Prop :=
  0 ≤ r.x ∧ 0 ≤ r.y ∧ r.x + r.w ≤ (s.w : Int) ∧ r.y + r.h ≤ (s.h : Int)

instance (r : Rect) (s : SDL_Surface) : Decidable (rectInBounds r s) := by
  unfold rectInBounds; infer_instance

/-- SurfaceRef::blit: pass the optional rectangles down (a missing
destination rectangle becomes a null pointer, which the foreign call
does not write through), and on status 0 return the destination
rectangle variable as the foreign call left it. -/
def blit (sem : BlitSem) (lastError : String) (src : SDL_Surface)
    (src_rect : Option Rect) (dst : SDL_Surface)
    (dst_rect : Option Rect) : Except String (Option Rect) :=
  let call := sem src src_rect dst dst_rect
  let dst_rect2 : Option Rect :=
    match dst_rect with
    | Option.none => Option.none
    | Option.some _ => Option.some call.2
  if call.1 = 0 then Except.ok dst_rect2 else Except.error lastError

/-- SurfaceRef::blit_scaled: same structure as blit over the scaled
foreign call. -/
def blit_scaled (sem : BlitSem) (lastError : String) (src : SDL_Surface)
    (src_rect : Option Rect) (dst : SDL_Surface)
    (dst_rect : Option Rect) : Except String (Option Rect) :=
  let call := sem src src_rect dst dst_rect
  let dst_rect2 : Option Rect :=
    match dst_rect with
    | Option.none => Option.none
    | Option.some _ => Option.some call.2
  if call.1 = 0 then Except.ok dst_rect2 else Except.error lastError

/-- C4: when a destination rectangle is supplied and the foreign call
succeeds, blit and blit_scaled return exactly the final rectangle the
foreign call stored — the actual destination rectangle used for the
copy, not the requested one — and whenever the foreign layer only ever
stores rectangles clipped to the destination bounds, the returned
rectangle is contained in the destination surface bounds. -/
theorem blit_returns_actual_destination_rect
    (sem semScaled : BlitSem) (lastError : String)
    (src dst : SDL_Surface) (src_rect : Option Rect) (r : Rect)
    (hok : (sem src src_rect dst (Option.some r)).1 = 0)
    (hokS : (semScaled src src_rect dst (Option.some r)).1 = 0)
    (hclip : ∀ a b c d, rectInBounds (sem a b c d).2 c)
    (hclipS : ∀ a b c d, rectInBounds (semScaled a b c d).2 c) :
    blit sem lastError src src_rect dst (Option.some r) =
      Except.ok (Option.some (sem src src_rect dst (Option.some r)).2) ∧
    rectInBounds (sem src src_rect dst (Option.some r)).2 dst ∧
    blit_scaled semScaled lastError src src_rect dst (Option.some r) =
      Except.ok
        (Option.some (semScaled src src_rect dst (Option.some r)).2) ∧
    rectInBounds (semScaled src src_rect dst (Option.some r)).2 dst := by
  refine ⟨?_, hclip _ _ _ _, ?_, hclipS _ _ _ _⟩
  · simp [blit, hok]
  · simp [blit_scaled, hokS]

/-- Witness for C4: a foreign layer that always succeeds and clips the
requested rectangle to the destination bounds; the oversized request
(0, 0, 10, 10) against the 4 x 4 concrete surface comes back as the
clipped rectangle (0, 0, 4, 4), which lies within bounds. -/
theorem blit_returns_actual_destination_rect_witness :
    blit
      (fun _ _ c _ => (0, ⟨0, 0, min 10 (c.w : Int), min 10 (c.h : Int)⟩))
      "" exSurf Option.none exSurf (Option.some ⟨0, 0, 10, 10⟩) =
      Except.ok (Option.some ⟨0, 0, 4, 4⟩) ∧
    rectInBounds (⟨0, 0, 10, 10⟩ : Rect) exSurf = False ∧
    rectInBounds (⟨0, 0, 4, 4⟩ : Rect) exSurf := by
  have h := blit_returns_actual_destination_rect
    (fun _ _ c _ => (0, ⟨0, 0, min 10 (c.w : Int), min 10 (c.h : Int)⟩))
    (fun _ _ c _ => (0, ⟨0, 0, min 10 (c.w : Int), min 10 (c.h : Int)⟩))
    "" exSurf exSurf Option.none ⟨0, 0, 10, 10⟩ (by decide) (by decide)
    (by intro a b c d; simp [rectInBounds])
    (by intro a b c d; simp [rectInBounds])
  refine ⟨?_, ?_, ?_⟩
  · have h1 := h.1
    simpa using h1
  · simp [rectInBounds, exSurf]
  · decide

/-- C9: on success the returned optional rectangle of blit and
blit_scaled is Some exactly when the supplied destination rectangle was
Some: a missing destination rectangle never yields a computed rectangle
back. -/
theorem blit_result_some_iff_dst_rect_some
    (sem semScaled : BlitSem) (lastError : String)
    (src dst : SDL_Surface) (src_rect dst_rect : Option Rect)
    (hok : (sem src src_rect dst dst_rect).1 = 0)
    (hokS : (semScaled src src_rect dst dst_rect).1 = 0) :
    (∃ out, blit sem lastError src src_rect dst dst_rect =
        Except.ok out ∧ out.isSome = dst_rect.isSome) ∧
    (∃ out, blit_scaled semScaled lastError src src_rect dst dst_rect =
        Except.ok out ∧ out.isSome = dst_rect.isSome) := by
  constructor
  · cases dst_rect with
    | none => exact ⟨Option.none, by simp [blit, hok], rfl⟩
    | some r =>
        exact ⟨Option.some (sem src src_rect dst (Option.some r)).2,
          by simp [blit, hok], rfl⟩
  · cases dst_rect with
    | none => exact ⟨Option.none, by simp [blit_scaled, hokS], rfl⟩
    | some r =>
        exact ⟨Option.some (semScaled src src_rect dst (Option.some r)).2,
          by simp [blit_scaled, hokS], rfl⟩

/-- Witness for C9 with an always-succeeding foreign layer, at a missing
destination rectangle: the result is None. -/
theorem blit_result_some_iff_dst_rect_some_witness :
    (∃ out, blit (fun _ _ _ _ => (0, ⟨0, 0, 1, 1⟩)) "" exSurf Option.none
        exSurf Option.none = Except.ok out ∧
      out.isSome = (Option.none : Option Rect).isSome) ∧
    (∃ out, blit_scaled (fun _ _ _ _ => (0, ⟨0, 0, 1, 1⟩)) "" exSurf
        Option.none exSurf Option.none = Except.ok out ∧
      out.isSome = (Option.none : Option Rect).isSome) :=
  blit_result_some_iff_dst_rect_some
    (fun _ _ _ _ => (0, ⟨0, 0, 1, 1⟩)) (fun _ _ _ _ => (0, ⟨0, 0, 1, 1⟩))
    "" exSurf exSurf Option.none Option.none rfl rfl

/-- Outcome of a wrapper operation that has no error result: either the
value, or a panic (the Rust panic macro) aborting the operation with the
foreign error text.  This type is deliberately distinct from Except,
which models the recoverable error results. -/
inductive PanicOr (α : Type) where
  | ok (a : α) : PanicOr α
  | panicked (msg : String) : PanicOr α
  deriving DecidableEq, Repr

/-- Blend modes from the collaborating render module, with the numeric
values of the foreign enumeration. -/
inductive BlendMode where
  | None
  | Blend
  | Add
  | Mod
  deriving DecidableEq, Repr

/-- The FromPrimitive conversion used by get_blend_mode: the inverse of
the foreign enumeration values 0, 1, 2, 4. -/
def blendModeFromI32 (n : Int) : Option BlendMode :=
  if n = 0 then Option.some BlendMode.None
  else if n = 1 then Option.some BlendMode.Blend
  else if n = 2 then Option.some BlendMode.Add
  else if n = 4 then Option.some BlendMode.Mod
  else Option.none

/-- SurfaceRef::enable_RLE: the foreign SDL_SetSurfaceRLE outcome is the
oracle setRLE (code and updated surface for a given flag argument); a
nonzero code panics with the foreign error text. -/
def enable_RLE (setRLE : SDL_Surface → Nat → Int × SDL_Surface)
    (lastError : String) (s : SDL_Surface) : PanicOr SDL_Surface :=
  let call := setRLE s 1
  if call.1 ≠ 0 then PanicOr.panicked lastError else PanicOr.ok call.2

/-- SurfaceRef::disable_RLE: as enable_RLE with flag argument 0. -/
def disable_RLE (setRLE : SDL_Surface → Nat → Int × SDL_Surface)
    (lastError : String) (s : SDL_Surface) : PanicOr SDL_Surface :=
  let call := setRLE s 0
  if call.1 ≠ 0 then PanicOr.panicked lastError else PanicOr.ok call.2

/-- SurfaceRef::get_alpha_mod: the foreign SDL_GetSurfaceAlphaMod outcome
is the oracle getAlpha (code and alpha out-parameter); a nonzero code
panics. -/
def get_alpha_mod (getAlpha : SDL_Surface → Int × Nat)
    (lastError : String) (s : SDL_Surface) : PanicOr Nat :=
  let call := getAlpha s
  if call.1 = 0 then PanicOr.ok call.2 else PanicOr.panicked lastError

/-- SurfaceRef::get_color_mod: the foreign SDL_GetSurfaceColorMod outcome
is the oracle getMod (code and the three channel out-parameters); on
code 0 the channels are packed into an RGB color, otherwise the wrapper
panics. -/
def get_color_mod (getMod : SDL_Surface → Int × (Nat × Nat × Nat))
    (lastError : String) (s : SDL_Surface) : PanicOr Color :=
  let call := getMod s
  if call.1 = 0 then PanicOr.ok (Color.RGB call.2.1 call.2.2.1 call.2.2.2)
  else PanicOr.panicked lastError

/-- SurfaceRef::get_blend_mode: the foreign SDL_GetSurfaceBlendMode
outcome is the oracle getBlend (code and mode out-parameter); on code 0
the mode is converted with FromPrimitive and unwrapped (an
unrepresentable mode also panics, through unwrap), otherwise the wrapper
panics with the foreign error text. -/
def get_blend_mode (getBlend : SDL_Surface → Int × Int)
    (lastError : String) (s : SDL_Surface) : PanicOr BlendMode :=
  let call := getBlend s
  if call.1 = 0 then
    match blendModeFromI32 call.2 with
    | Option.some m => PanicOr.ok m
    | Option.none => PanicOr.panicked "called unwrap on a None value"
  else PanicOr.panicked lastError

/-- Model of the foreign SDL_GetColorKey call: code 0 and the key when a
color key is set, a negative code otherwise (the documented no-color-key
failure). -/
def SDL_GetColorKey (s : SDL_Surface) : Int × Nat :=
  match s.colorKey with
  | Option.some k => (0, k)
  | Option.none => (-1, 0)

/-- SurfaceRef::get_color_key: translate the foreign code into a
recoverable result, converting the key through the pixels-module
conversion (parameter fromU32, standing for Color::from_u32 with the
surface format). -/
def get_color_key (fromU32 : Nat → Color) (lastError : String)
    (s : SDL_Surface) : Except String Color :=
  let call := SDL_GetColorKey s
  if call.1 = 0 then Except.ok (fromU32 call.2)
  else Except.error lastError

/-- SurfaceRef::set_color_mod: destructure the color into its three
color channels — both the RGB and the RGBA pattern keep only r, g, b —
and hand them to the foreign SDL_SetSurfaceColorMod (oracle setMod); a
nonzero code panics. -/
def set_color_mod (setMod : SDL_Surface → Nat → Nat → Nat → Int × SDL_Surface)
    (lastError : String) (s : SDL_Surface) (color : Color) :
    PanicOr SDL_Surface :=
  let rgb := match color with
    | Color.RGB r g b => (r, g, b)
    | Color.RGBA r g b _ => (r, g, b)
  let call := setMod s rgb.1 rgb.2.1 rgb.2.2
  if call.1 ≠ 0 then PanicOr.panicked lastError else PanicOr.ok call.2

/-- C6: the error-handling split.  On a failing foreign call, RLE
enable/disable, alpha-mod get, color-mod get and blend-mode get panic
(a PanicOr.panicked outcome, with no recoverable branch in their types),
while color-key lookup on a surface with no color key set returns the
recoverable Except.error value to the caller — and succeeds when a key
is set. -/
theorem fatal_vs_recoverable_split
    (setRLE : SDL_Surface → Nat → Int × SDL_Surface)
    (getAlpha : SDL_Surface → Int × Nat)
    (getMod : SDL_Surface → Int × (Nat × Nat × Nat))
    (getBlend : SDL_Surface → Int × Int)
    (fromU32 : Nat → Color) (lastError : String)
    (s1 s2 s3 s4 s5 s6 s7 : SDL_Surface) (k : Nat)
    (h1 : (setRLE s1 1).1 ≠ 0) (h2 : (setRLE s2 0).1 ≠ 0)
    (h3 : (getAlpha s3).1 ≠ 0) (h4 : (getMod s4).1 ≠ 0)
    (h5 : (getBlend s5).1 ≠ 0)
    (h6 : s6.colorKey = Option.none) (h7 : s7.colorKey = Option.some k) :
    enable_RLE setRLE lastError s1 = PanicOr.panicked lastError ∧
    disable_RLE setRLE lastError s2 = PanicOr.panicked lastError ∧
    get_alpha_mod getAlpha lastError s3 = PanicOr.panicked lastError ∧
    get_color_mod getMod lastError s4 = PanicOr.panicked lastError ∧
    get_blend_mode getBlend lastError s5 = PanicOr.panicked lastError ∧
    get_color_key fromU32 lastError s6 = Except.error lastError ∧
    get_color_key fromU32 lastError s7 = Except.ok (fromU32 k) := by
  refine ⟨?_, ?_, ?_, ?_, ?_, ?_, ?_⟩
  · simp [enable_RLE, h1]
  · simp [disable_RLE, h2]
  · simp [get_alpha_mod, h3]
  · simp [get_color_mod, h4]
  · simp [get_blend_mode, h5]
  · simp [get_color_key, SDL_GetColorKey, h6]
  · simp [get_color_key, SDL_GetColorKey, h7]

/-- Witness for C6 with concrete always-failing oracles, the concrete
surface without a color key and a variant carrying key 5. -/
theorem fatal_vs_recoverable_split_witness :
    enable_RLE (fun s _ => (-1, s)) "err" exSurf =
      PanicOr.panicked "err" ∧
    disable_RLE (fun s _ => (-1, s)) "err" exSurf =
      PanicOr.panicked "err" ∧
    get_alpha_mod (fun _ => (-1, 0)) "err" exSurf =
      PanicOr.panicked "err" ∧
    get_color_mod (fun _ => (-1, (0, 0, 0))) "err" exSurf =
      PanicOr.panicked "err" ∧
    get_blend_mode (fun _ => (-1, 0)) "err" exSurf =
      PanicOr.panicked "err" ∧
    get_color_key (fun n => Color.RGB n n n) "err" exSurf =
      Except.error "err" ∧
    get_color_key (fun n => Color.RGB n n n) "err"
        { exSurf with colorKey := Option.some 5 } =
      Except.ok (Color.RGB 5 5 5) :=
  fatal_vs_recoverable_split (fun s _ => (-1, s)) (fun _ => (-1, 0))
    (fun _ => (-1, (0, 0, 0))) (fun _ => (-1, 0))
    (fun n => Color.RGB n n n) "err" exSurf exSurf exSurf exSurf exSurf
    exSurf { exSurf with colorKey := Option.some 5 } 5
    (by decide) (by decide) (by decide) (by decide) (by decide) rfl rfl

/-- C10: set_color_mod with an RGBA color behaves exactly as with the
RGB color of the same three channels — the alpha component is discarded
before the foreign call. -/
theorem set_color_mod_discards_alpha
    (setMod : SDL_Surface → Nat → Nat → Nat → Int × SDL_Surface)
    (lastError : String) (s : SDL_Surface) (r g b a : Nat) :
    set_color_mod setMod lastError s (Color.RGBA r g b a) =
      set_color_mod setMod lastError s (Color.RGB r g b) := rfl

/-- Intersection of two rectangles, empty extents clamped to zero. -/
def rectIntersect (a b : Rect) : Rect :=
  let x := max a.x b.x
  let y := max a.y b.y
  let rgt := min (a.x + a.w) (b.x + b.w)
  let btm := min (a.y + a.h) (b.y + b.h)
  { x := x, y := y, w := max (rgt - x) 0, h := max (btm - y) 0 }

/-- The full bounding rectangle of a surface (SurfaceRef::get_rect). -/
def surfaceRect (s : SDL_Surface) : Rect :=
  ⟨0, 0, (s.w : Int), (s.h : Int)⟩

/-- Model of the foreign SDL_SetClipRect call, per its documented
contract: a null rectangle pointer (Option.none) disables clipping by
setting the clip rectangle to the full surface; otherwise the clip
rectangle becomes the intersection of the requested rectangle with the
surface bounds; the returned code is 1 (true) when the resulting clip
rectangle is non-empty and 0 (false) when the surface is completely
clipped out. -/
def SDL_SetClipRect (s : SDL_Surface) (r : Option Rect) :
    Int × SDL_Surface :=
  let full := surfaceRect s
  let newClip := match r with
    | Option.none => full
    | Option.some rr => rectIntersect rr full
  (if 0 < newClip.w ∧ 0 < newClip.h then 1 else 0,
   { s with clip := newClip })

/-- SurfaceRef::set_clip_rect: pass the rectangle down (None becomes the
null pointer) and compare the foreign code against 1. -/
def set_clip_rect (s : SDL_Surface) (r : Option Rect) :
    Bool × SDL_Surface :=
  let call := SDL_SetClipRect s r
  (call.1 == 1, call.2)

/-- C8: set_clip_rect returns true exactly when the resulting clip
rectangle has non-zero area, and a None rectangle disables clipping by
resetting the stored clip rectangle to the full surface bounds. -/
theorem set_clip_rect_reports_nonzero_area (s : SDL_Surface)
    (r : Option Rect) :
    ((set_clip_rect s r).1 = true ↔
      0 < (set_clip_rect s r).2.clip.w ∧
        0 < (set_clip_rect s r).2.clip.h) ∧
    (set_clip_rect s Option.none).2.clip = surfaceRect s := by
  constructor
  · simp only [set_clip_rect, SDL_SetClipRect]
    by_cases h : 0 < (match r with
        | Option.none => surfaceRect s
        | Option.some rr => rectIntersect rr (surfaceRect s)).w ∧
        0 < (match r with
        | Option.none => surfaceRect s
        | Option.some rr => rectIntersect rr (surfaceRect s)).h <;>
      simp [h]
  · simp [set_clip_rect, SDL_SetClipRect]

end RustSdl2Surface
